import Mathlib

/-!
Verification of the partial-score computation engine of a CartolaFC
fantasy-football client.  The definitions below are a shallow embedding of
`src/cartolafc/api.py` (`_calculate_parcial`, `_calculate_parcial_2`, the
`_teste` lookup helpers and the dynamic input check) together with the entity
classes of `src/cartolafc/models.py`.  Scores are modelled as exact rationals,
Python `None` club references as `Option`, the live feed as an association
list from player id to `Atleta`, and the internal network fetch of the
round's match list is replaced by an explicit `partidas` parameter (the spec
mandates this dependency injection).  Mutation of the roster is modelled by
returning the updated `Time` value.
-/

set_option maxHeartbeats 1000000

namespace CartolaFC

/-- Scout breakdown: mapping of event code to count (models the `scout` dict of
`models.py`; the empty breakdown is `[]`). -/
abbrev Scout := List (String × Int)

/-- Models `cartolafc.models.Clube` (fields used by the engine). -/
structure Clube where
  id : Int
  nome : String
  abreviacao : String
deriving DecidableEq, Repr

/-- Models the `Posicao` namedtuple of `cartolafc.models`. -/
structure Posicao where
  id : Int
  nome : String
  abreviacao : String
deriving DecidableEq, Repr

/-- The static `_posicoes` lookup table of `models.py`. -/
def posicoes : List Posicao :=
  [⟨1, "Goleiro", "GOL"⟩, ⟨2, "Lateral", "LAT"⟩, ⟨3, "Zagueiro", "ZAG"⟩,
   ⟨4, "Meia", "MEI"⟩, ⟨5, "Atacante", "ATA"⟩, ⟨6, "Técnico", "TEC"⟩]

/-- Models `cartolafc.models.Atleta` (the fields read or written by the
partial-score engine).  `nome` is the display-name attribute the aggregator
assigns onto the object at line 488 of `api.py`; `clube` is `none` when the
source stores the empty string (free agents, `clube_id == 1`). -/
structure Atleta where
  id : Int
  apelido : String
  nome : String := ""
  pontos : ℚ
  scout : Scout := []
  posicao : Posicao
  entrou_em_campo : Bool := false
  clube : Option Clube := none
  is_capitao : Bool := false
deriving DecidableEq, Repr

/-- Models `cartolafc.models.Partida` (fields used by the engine). -/
structure Partida where
  valida : Bool
  clube_casa : Clube
  clube_visitante : Clube
  fim_de_jogo : String
  status_transmissao_tr : String
deriving DecidableEq, Repr

/-- Models `cartolafc.models.Time`.  `reservas` is optional because
`Time.from_dict` leaves it `None` when the payload has no bench; `jogados` is
the matches-played counter the aggregator assigns onto the object. -/
structure Time where
  patrimonio : ℚ := 0
  valor_time : ℚ := 0
  ultima_pontuacao : ℚ := 0
  atletas : List Atleta
  reservas : Option (List Atleta) := none
  pontos : ℚ := 0
  jogados : Nat := 0
  rodada_atual : Int := 0
deriving DecidableEq, Repr

/-- Models `parciais.get(id_)` — the `_teste` helper of `api.py` (line 454)
and the direct `parciais.get(reserva.id)` calls.  The feed is an association
list; a Python dict has unique keys, and `find?` returns the unique match. -/
def lookupParcial (parciais : List (Int × Atleta)) (id_ : Int) : Option Atleta :=
  (parciais.find? (fun kv => kv.1 == id_)).map (fun kv => kv.2)

/-- Lines 486-493 of `api.py`: copy the feed record's display name, live
score, scout breakdown and entered-play flag onto a starter, with the absent
defaults (`''`, `0`, `{}`, `False`). -/
def refreshAtleta (parciais : List (Int × Atleta)) (atleta : Atleta) : Atleta :=
  match lookupParcial parciais atleta.id with
  | some ap => { atleta with
      nome := ap.apelido, pontos := ap.pontos, scout := ap.scout,
      entrou_em_campo := ap.entrou_em_campo }
  | none => { atleta with nome := "", pontos := 0, scout := [], entrou_em_campo := false }

/-- Lines 512-515 of `api.py`: refresh one reserve's live score and scout
breakdown from the feed (absent defaults `0` and `{}`). -/
def refreshReserva (parciais : List (Int × Atleta)) (reserva : Atleta) : Atleta :=
  match lookupParcial parciais reserva.id with
  | some rp => { reserva with pontos := rp.pontos, scout := rp.scout }
  | none => { reserva with pontos := 0, scout := [] }

/-- Lines 499-500 of `api.py`: one `Partida` references the starter's club
when the club reference resolves (`atleta.clube != ''`) and its name equals
the home or away club name. -/
def partidaDoClube (clube : Option Clube) (partida : Partida) : Bool :=
  match clube with
  | none => false
  | some c => c.nome == partida.clube_casa.nome || c.nome == partida.clube_visitante.nome

/-- Lines 503-507 of `api.py`: the finished test applied to one match. -/
def partidaFinalizada (partida : Partida) : Bool :=
  (partida.fim_de_jogo == "veja como foi" || partida.status_transmissao_tr == "ENCERRADA")
    || !partida.valida

/-- The `jogo_finalizou` scan of lines 496-507: the flag starts false, every
match referencing the club overwrites it (so the last referencing match
wins), and matches of other clubs leave it unchanged. -/
def jogoFinalizou (clube : Option Clube) (partidas : List Partida) : Bool :=
  partidas.foldl
    (fun acc partida => if partidaDoClube clube partida then partidaFinalizada partida else acc)
    false

/-- Result of one pass of the reserve loop (lines 510-537) for one starter:
the (partially refreshed) reserve list, the points credited to `time.pontos`
and the updated `reserva_usado` list. -/
structure SubOut where
  reservas : List Atleta
  pontos : ℚ
  reserva_usado : List String
deriving DecidableEq, Repr

/-- Lines 510-537 of `api.py`: the reserve scan for one starter.  Each
scanned reserve is refreshed first; the scan breaks after the first reserve
when the starter entered play (`else: break`, line 537) or when the starter's
position is already in `reserva_usado` (line 524), and breaks after crediting
when the position-consuming branch fires (lines 529-534).  The captain branch
(lines 526-527) credits without breaking; the local `foundRes` of the source
is reset to `False` on every iteration (line 522), so its test on line 529 is
always true and it is omitted here.  `reserva_pontos` and `reserva_cap` are
dead variables of the source. -/
def reservasLoop (parciais : List (Int × Atleta)) (atleta : Atleta) (jogo_finalizou : Bool) :
    List String → List Atleta → SubOut
  | reserva_usado, [] => ⟨[], 0, reserva_usado⟩
  | reserva_usado, reserva :: rest =>
    let reserva := refreshReserva parciais reserva
    if atleta.entrou_em_campo then
      ⟨reserva :: rest, 0, reserva_usado⟩
    else if reserva_usado.contains atleta.posicao.nome then
      ⟨reserva :: rest, 0, reserva_usado⟩
    else
      let cap : ℚ :=
        if atleta.is_capitao ∧ atleta.posicao.nome = reserva.posicao.nome ∧ jogo_finalizou then
          reserva.pontos
        else 0
      if atleta.posicao.nome = reserva.posicao.nome ∧ jogo_finalizou ∧
          (1 : ℚ)/10 ≤ reserva.pontos then
        ⟨reserva :: rest, cap + reserva.pontos, reserva_usado ++ [atleta.posicao.nome]⟩
      else
        let out := reservasLoop parciais atleta jogo_finalizou reserva_usado rest
        ⟨reserva :: out.reservas, cap + out.pontos, out.reserva_usado⟩

/-- The `if time.reservas:` guard of line 509: Python truthiness is false for
both `None` and the empty list, in which case the reserve loop does not run. -/
def reservasStep (parciais : List (Int × Atleta)) (atleta : Atleta) (jogo_finalizou : Bool)
    (reservas : Option (List Atleta)) (reserva_usado : List String) :
    Option (List Atleta) × ℚ × List String :=
  match reservas with
  | some rs =>
    if rs.isEmpty then (some rs, 0, reserva_usado)
    else
      let out := reservasLoop parciais atleta jogo_finalizou reserva_usado rs
      (some out.reservas, out.pontos, out.reserva_usado)
  | none => (none, 0, reserva_usado)

/-- The full mutable state of the starter loop of `_calculate_parcial`. -/
structure CalcOut where
  atletas : List Atleta
  reservas : Option (List Atleta)
  pontos : ℚ
  jogados : Nat
  reserva_usado : List String
deriving DecidableEq, Repr

/-- The starter loop of `_calculate_parcial` (lines 475-542).  For each
starter in stored order: look the starter up in the feed (the
`ThreadPoolExecutor` submits exactly one `_teste` lookup and waits for it, so
it is a synchronous lookup), refresh the starter's fields, bump `jogados`,
compute `jogo_finalizou`, run the reserve scan, apply the captain multiplier
to the starter's own score (line 540) and accumulate `time.pontos`. -/
def atletasLoop (parciais : List (Int × Atleta)) (partidas : List Partida) :
    List Atleta → Option (List Atleta) → ℚ → Nat → List String → CalcOut
  | [], reservas, pontos, jogados, reserva_usado => ⟨[], reservas, pontos, jogados, reserva_usado⟩
  | atleta :: rest, reservas, pontos, jogados, reserva_usado =>
    let tem_parcial := (lookupParcial parciais atleta.id).isSome
    let atleta := refreshAtleta parciais atleta
    let jogados := jogados + (if tem_parcial then 1 else 0)
    let jogo_finalizou := jogoFinalizou atleta.clube partidas
    let rsOut := reservasStep parciais atleta jogo_finalizou reservas reserva_usado
    let atleta := if atleta.is_capitao then
        { atleta with pontos := atleta.pontos * ((3 : ℚ)/2) }
      else atleta
    let pontos := pontos + rsOut.2.1 + atleta.pontos
    let out := atletasLoop parciais partidas rest rsOut.1 pontos jogados rsOut.2.2
    { out with atletas := atleta :: out.atletas }

/-- `Api._calculate_parcial` on type-correct inputs (lines 469-544 of
`api.py`): reset `pontos` and `jogados`, run the starter loop, return the
mutated roster.  The round's match list is the injected `partidas`
parameter. -/
def calculate_parcial (time : Time) (parciais : List (Int × Atleta))
    (partidas : List Partida) : Time :=
  let time := { time with pontos := 0, jogados := 0 }
  let out := atletasLoop parciais partidas time.atletas time.reservas time.pontos time.jogados []
  { time with
      atletas := out.atletas, reservas := out.reservas,
      pontos := out.pontos, jogados := out.jogados }

/-- A Python dict key as seen by the `isinstance(key, int)` check of line 464:
either an actual integer or some other hashable (represented by a string). -/
inductive PyKey where
  | int (n : Int)
  | str (s : String)
deriving DecidableEq, Repr

/-- A Python dict value as seen by the `isinstance(parciais[key], Atleta)`
check of line 464: either an actual `Atleta` or some other object. -/
inductive PyVal where
  | atleta (a : Atleta)
  | str (s : String)
deriving DecidableEq, Repr

/-- The `time` argument as seen by the `isinstance(time, Time)` check of
line 465: an actual `Time` or some other object. -/
inductive PyTime where
  | time (t : Time)
  | str (s : String)
deriving DecidableEq, Repr

/-- The well-formedness test of lines 464-465: every key is an `int` and every
value is an `Atleta`, and the roster argument is a `Time`. -/
def inputsValidos (time : PyTime) (parciais : List (PyKey × PyVal)) : Bool :=
  (!(parciais.any fun kv =>
      !(match kv.1 with | .int _ => true | _ => false) ||
      !(match kv.2 with | .atleta _ => true | _ => false)))
    && (match time with | .time _ => true | _ => false)

/-- Extract the typed feed once the dynamic check has passed. -/
def extractParciais (parciais : List (PyKey × PyVal)) : List (Int × Atleta) :=
  parciais.filterMap fun kv =>
    match kv with
    | (.int n, .atleta a) => some (n, a)
    | _ => none

/-- `Api._calculate_parcial` including the dynamic input check of lines
464-466: on malformed input it raises `CartolaFCError` before any mutation,
modelled by returning `Except.error` with the source's message. -/
def calculate_parcial_checked (time : PyTime) (parciais : List (PyKey × PyVal))
    (partidas : List Partida) : Except String Time :=
  if inputsValidos time parciais then
    match time with
    | .time t => .ok (calculate_parcial t (extractParciais parciais) partidas)
    | .str _ => .error "Time ou parciais não são válidos."
  else .error "Time ou parciais não são válidos."

/-! ## Specification-side definitions (§4.3, §4.4 of the spec) -/

/-- Specification §4.3 `resolveSubstitution(starter, reserves, matchFinished,
positionsAlreadySubstituted) -> (pointsToAdd, substitutedPosition | none)`:
the substitution credit awarded for one starter, scanning the stored reserve
list, with each reserve's points read from the live feed.  Steps 2a and 2b
are independent tests, exactly as the spec states them. -/
def resolveSubstitution (parciais : List (Int × Atleta)) (atleta : Atleta)
    (jogo_finalizou : Bool) : List String → List Atleta → ℚ × Option String
  | _, [] => (0, none)
  | reserva_usado, reserva :: rest =>
    let reserva := refreshReserva parciais reserva
    if atleta.entrou_em_campo then (0, none)
    else if reserva_usado.contains atleta.posicao.nome then (0, none)
    else
      let cap : ℚ :=
        if atleta.is_capitao ∧ atleta.posicao.nome = reserva.posicao.nome ∧ jogo_finalizou then
          reserva.pontos
        else 0
      if atleta.posicao.nome = reserva.posicao.nome ∧ jogo_finalizou ∧
          (1 : ℚ)/10 ≤ reserva.pontos then
        (cap + reserva.pontos, some atleta.posicao.nome)
      else
        let out := resolveSubstitution parciais atleta jogo_finalizou reserva_usado rest
        (cap + out.1, out.2)

/-- Specification §4.4 steps (a) and (e): the net per-starter update — refresh
from the feed, then apply the captain multiplier to the starter's own score. -/
def starterUpdate (parciais : List (Int × Atleta)) (atleta : Atleta) : Atleta :=
  let b := refreshAtleta parciais atleta
  if b.is_capitao then { b with pontos := b.pontos * ((3 : ℚ)/2) } else b

/-- A starter's own contribution to `pontos`, in the spec's words: the live
score looked up in the feed (0 if absent), multiplied by 1.5 if the starter
is the captain. -/
def starterOwnScore (parciais : List (Int × Atleta)) (atleta : Atleta) : ℚ :=
  let livePontos : ℚ :=
    match lookupParcial parciais atleta.id with
    | some ap => ap.pontos
    | none => 0
  if atleta.is_capitao then livePontos * ((3 : ℚ)/2) else livePontos

/-- The sum of the starters' own contributions, in stored order. -/
def ownSum (parciais : List (Int × Atleta)) (atletas : List Atleta) : ℚ :=
  (atletas.map (starterOwnScore parciais)).sum

/-- Specification §4.4 result guarantee for `jogados`: the number of starters
whose id has an entry in the live feed. -/
def jogadosSpec (parciais : List (Int × Atleta)) (atletas : List Atleta) : Nat :=
  atletas.countP (fun a => (lookupParcial parciais a.id).isSome)

/-- The per-starter substitution credits of one scoring pass, in stored
order: each starter is refreshed from the feed, its match status resolved,
and §4.3 applied against the roster's reserve list, threading the roster-wide
positions-already-substituted list. -/
def substitutionCredits (parciais : List (Int × Atleta)) (partidas : List Partida)
    (reservas : List Atleta) : List Atleta → List String → List ℚ
  | [], _ => []
  | atleta :: rest, reserva_usado =>
    let a := refreshAtleta parciais atleta
    let jf := jogoFinalizou a.clube partidas
    let out := resolveSubstitution parciais a jf reserva_usado reservas
    out.1 :: substitutionCredits parciais partidas reservas rest (reserva_usado ++ out.2.toList)

/-! ## Field-preservation and idempotence lemmas for the refresh operations -/

@[simp] theorem refreshAtleta_id (p : List (Int × Atleta)) (a : Atleta) :
    (refreshAtleta p a).id = a.id := by
  unfold refreshAtleta; cases lookupParcial p a.id <;> rfl

@[simp] theorem refreshAtleta_clube (p : List (Int × Atleta)) (a : Atleta) :
    (refreshAtleta p a).clube = a.clube := by
  unfold refreshAtleta; cases lookupParcial p a.id <;> rfl

@[simp] theorem refreshAtleta_is_capitao (p : List (Int × Atleta)) (a : Atleta) :
    (refreshAtleta p a).is_capitao = a.is_capitao := by
  unfold refreshAtleta; cases lookupParcial p a.id <;> rfl

@[simp] theorem refreshAtleta_posicao (p : List (Int × Atleta)) (a : Atleta) :
    (refreshAtleta p a).posicao = a.posicao := by
  unfold refreshAtleta; cases lookupParcial p a.id <;> rfl

@[simp] theorem refreshReserva_id (p : List (Int × Atleta)) (r : Atleta) :
    (refreshReserva p r).id = r.id := by
  unfold refreshReserva; cases lookupParcial p r.id <;> rfl

@[simp] theorem refreshReserva_posicao (p : List (Int × Atleta)) (r : Atleta) :
    (refreshReserva p r).posicao = r.posicao := by
  unfold refreshReserva; cases lookupParcial p r.id <;> rfl

@[simp] theorem starterUpdate_id (p : List (Int × Atleta)) (a : Atleta) :
    (starterUpdate p a).id = a.id := by
  unfold starterUpdate
  by_cases h : a.is_capitao <;> simp [h]

@[simp] theorem starterUpdate_clube (p : List (Int × Atleta)) (a : Atleta) :
    (starterUpdate p a).clube = a.clube := by
  unfold starterUpdate
  by_cases h : a.is_capitao <;> simp [h]

/-- Refreshing a reserve is idempotent. -/
theorem refreshReserva_idem (p : List (Int × Atleta)) (r : Atleta) :
    refreshReserva p (refreshReserva p r) = refreshReserva p r := by
  unfold refreshReserva
  rcases h : lookupParcial p r.id with _ | ap <;> simp [h]

/-- Refreshing a starter after the full per-starter update gives the same
result as refreshing the original starter: the update only writes the fields
that the refresh overwrites. -/
theorem refreshAtleta_starterUpdate (p : List (Int × Atleta)) (a : Atleta) :
    refreshAtleta p (starterUpdate p a) = refreshAtleta p a := by
  unfold starterUpdate
  by_cases hc : a.is_capitao <;>
    · simp only [refreshAtleta_is_capitao, hc, if_true, if_false, reduceIte]
      unfold refreshAtleta
      rcases h : lookupParcial p a.id with _ | ap <;> simp [h, hc]

/-! ## The reserve scan agrees with §4.3 -/

/-- One reserve scan: the credited points and the recorded position of the
implementation loop coincide with §4.3 `resolveSubstitution`, and the
returned reserve list is pointwise refresh-equivalent to its input. -/
theorem reservasLoop_spec (p : List (Int × Atleta)) (a : Atleta) (jf : Bool) :
    ∀ (usado : List String) (l : List Atleta),
      (reservasLoop p a jf usado l).pontos = (resolveSubstitution p a jf usado l).1
    ∧ (reservasLoop p a jf usado l).reserva_usado
        = usado ++ (resolveSubstitution p a jf usado l).2.toList
    ∧ (reservasLoop p a jf usado l).reservas.map (refreshReserva p)
        = l.map (refreshReserva p) := by
  intro usado l
  induction l generalizing usado with
  | nil => simp [reservasLoop, resolveSubstitution]
  | cons r rest ih =>
    simp only [reservasLoop, resolveSubstitution]
    by_cases h1 : a.entrou_em_campo
    · simp [h1, refreshReserva_idem]
    · by_cases h2 : a.posicao.nome ∈ usado
      · simp [h1, h2, refreshReserva_idem]
      · by_cases h3 : a.posicao.nome = r.posicao.nome ∧ jf = true ∧
            ((10 : ℚ))⁻¹ ≤ (refreshReserva p r).pontos
        · obtain ⟨he, hjf, hge⟩ := h3
          rw [he] at h2
          simp [h1, h2, he, hjf, hge, refreshReserva_idem]
        · have hrec := ih usado
          simp [h1, h2, h3, refreshReserva_idem, hrec.1, hrec.2.1, hrec.2.2]

/-- §4.3 reads each reserve only through its feed refresh, so it cannot
distinguish reserve lists whose refreshes agree pointwise. -/
theorem resolveSubstitution_congr (p : List (Int × Atleta)) (a : Atleta) (jf : Bool) :
    ∀ (usado : List String) (l₁ l₂ : List Atleta),
      l₁.map (refreshReserva p) = l₂.map (refreshReserva p) →
      resolveSubstitution p a jf usado l₁ = resolveSubstitution p a jf usado l₂ := by
  intro usado l₁
  induction l₁ generalizing usado with
  | nil =>
    intro l₂ h
    cases l₂ with
    | nil => rfl
    | cons s t => simp at h
  | cons r rest ih =>
    intro l₂ h
    cases l₂ with
    | nil => simp at h
    | cons s rest₂ =>
      simp only [List.map_cons, List.cons.injEq] at h
      obtain ⟨hh, ht⟩ := h
      simp only [resolveSubstitution]
      rw [hh, ih usado rest₂ ht]

/-- The guarded reserve step of line 509: its credit, its `reserva_usado`
update and the refresh class of its reserve list, relative to any
refresh-equivalent base list. -/
theorem reservasStep_spec (p : List (Int × Atleta)) (a : Atleta) (jf : Bool)
    (resOpt resBase : Option (List Atleta)) (usado : List String)
    (h : resOpt.map (List.map (refreshReserva p))
          = resBase.map (List.map (refreshReserva p))) :
    (reservasStep p a jf resOpt usado).2.1
      = (resolveSubstitution p a jf usado (resBase.getD [])).1
  ∧ (reservasStep p a jf resOpt usado).2.2
      = usado ++ (resolveSubstitution p a jf usado (resBase.getD [])).2.toList
  ∧ (reservasStep p a jf resOpt usado).1.map (List.map (refreshReserva p))
      = resBase.map (List.map (refreshReserva p)) := by
  cases resOpt with
  | none =>
    cases resBase with
    | none => simp [reservasStep, resolveSubstitution]
    | some base => simp at h
  | some rs =>
    cases resBase with
    | none => simp at h
    | some base =>
      simp only [Option.map_some'] at h
      injection h with h
      by_cases he : rs.isEmpty
      · have hrs : rs = [] := List.isEmpty_iff.mp he
        subst hrs
        have hbase : base = [] := by
          simpa using h.symm
        subst hbase
        simp [reservasStep, resolveSubstitution]
      · have hcong := resolveSubstitution_congr p a jf usado rs base h
        have hloop := reservasLoop_spec p a jf usado rs
        simp only [reservasStep, he, if_false, Bool.false_eq_true, reduceIte]
        refine ⟨?_, ?_, ?_⟩
        · simpa [hcong] using hloop.1
        · simpa [hcong] using hloop.2.1
        · simpa [h] using hloop.2.2

/-! ## The starter loop realises the §4.4 result guarantee -/

/-- The per-starter update writes exactly the own contribution as the
starter's score. -/
theorem starterUpdate_pontos (p : List (Int × Atleta)) (a : Atleta) :
    (starterUpdate p a).pontos = starterOwnScore p a := by
  unfold starterUpdate starterOwnScore
  by_cases hc : a.is_capitao <;>
    rcases h : lookupParcial p a.id with _ | ap <;>
      simp [refreshAtleta, h, hc]

theorem ownSum_cons (p : List (Int × Atleta)) (a : Atleta) (l : List Atleta) :
    ownSum p (a :: l) = starterOwnScore p a + ownSum p l := by
  simp [ownSum]

theorem jogadosSpec_cons (p : List (Int × Atleta)) (a : Atleta) (l : List Atleta) :
    jogadosSpec p (a :: l)
      = (if (lookupParcial p a.id).isSome then 1 else 0) + jogadosSpec p l := by
  simp [jogadosSpec, List.countP_cons]
  omega

theorem substitutionCredits_cons (p : List (Int × Atleta)) (ps : List Partida)
    (rs : List Atleta) (a : Atleta) (rest : List Atleta) (usado : List String) :
    substitutionCredits p ps rs (a :: rest) usado
      = (resolveSubstitution p (refreshAtleta p a)
            (jogoFinalizou (refreshAtleta p a).clube ps) usado rs).1
        :: substitutionCredits p ps rs rest
            (usado ++ (resolveSubstitution p (refreshAtleta p a)
                (jogoFinalizou (refreshAtleta p a).clube ps) usado rs).2.toList) := rfl

/-- The state carried from one starter iteration to the next: the (partially
refreshed) reserve list, the accumulated `pontos` and `jogados`, and the
`reserva_usado` list. -/
def atletaPasso (p : List (Int × Atleta)) (ps : List Partida) (a : Atleta)
    (resOpt : Option (List Atleta)) (pontos : ℚ) (jogados : Nat) (usado : List String) :
    Option (List Atleta) × ℚ × Nat × List String :=
  let rsOut := reservasStep p (refreshAtleta p a)
    (jogoFinalizou (refreshAtleta p a).clube ps) resOpt usado
  (rsOut.1, pontos + rsOut.2.1 + (starterUpdate p a).pontos,
   jogados + (if (lookupParcial p a.id).isSome then 1 else 0), rsOut.2.2)

/-- Unfolding one starter iteration of the loop. -/
theorem atletasLoop_cons (p : List (Int × Atleta)) (ps : List Partida) (a : Atleta)
    (rest : List Atleta) (resOpt : Option (List Atleta)) (pontos : ℚ) (jogados : Nat)
    (usado : List String) :
    atletasLoop p ps (a :: rest) resOpt pontos jogados usado =
      { atletasLoop p ps rest (atletaPasso p ps a resOpt pontos jogados usado).1
          (atletaPasso p ps a resOpt pontos jogados usado).2.1
          (atletaPasso p ps a resOpt pontos jogados usado).2.2.1
          (atletaPasso p ps a resOpt pontos jogados usado).2.2.2 with
        atletas := starterUpdate p a
          :: (atletasLoop p ps rest (atletaPasso p ps a resOpt pontos jogados usado).1
              (atletaPasso p ps a resOpt pontos jogados usado).2.1
              (atletaPasso p ps a resOpt pontos jogados usado).2.2.1
              (atletaPasso p ps a resOpt pontos jogados usado).2.2.2).atletas } := rfl

/-- The starter loop realises the §4.4 result guarantee, relative to any base
reserve list refresh-equivalent to the loop's current one: the processed
starters are exactly the per-starter updates, the reserve list stays in the
same refresh class, `pontos` accumulates the starters' own scores plus the
§4.3 substitution credits, and `jogados` counts the starters present in the
feed. -/
theorem atletasLoop_spec (p : List (Int × Atleta)) (ps : List Partida)
    (resBase : Option (List Atleta)) :
    ∀ (atletas : List Atleta) (resOpt : Option (List Atleta)) (pontos : ℚ)
      (jogados : Nat) (usado : List String),
      resOpt.map (List.map (refreshReserva p))
          = resBase.map (List.map (refreshReserva p)) →
      (atletasLoop p ps atletas resOpt pontos jogados usado).atletas
          = atletas.map (starterUpdate p)
      ∧ (atletasLoop p ps atletas resOpt pontos jogados usado).reservas.map
            (List.map (refreshReserva p)) = resBase.map (List.map (refreshReserva p))
      ∧ (atletasLoop p ps atletas resOpt pontos jogados usado).pontos
          = pontos + ownSum p atletas
            + (substitutionCredits p ps (resBase.getD []) atletas usado).sum
      ∧ (atletasLoop p ps atletas resOpt pontos jogados usado).jogados
          = jogados + jogadosSpec p atletas := by
  intro atletas
  induction atletas with
  | nil =>
    intro resOpt pontos jogados usado h
    simpa [atletasLoop, ownSum, jogadosSpec, substitutionCredits] using h
  | cons a rest ih =>
    intro resOpt pontos jogados usado h
    have hstep := reservasStep_spec p (refreshAtleta p a)
      (jogoFinalizou (refreshAtleta p a).clube ps) resOpt resBase usado h
    have hst1 : (atletaPasso p ps a resOpt pontos jogados usado).1
        = (reservasStep p (refreshAtleta p a)
            (jogoFinalizou (refreshAtleta p a).clube ps) resOpt usado).1 := rfl
    have hih := ih (atletaPasso p ps a resOpt pontos jogados usado).1
      (atletaPasso p ps a resOpt pontos jogados usado).2.1
      (atletaPasso p ps a resOpt pontos jogados usado).2.2.1
      (atletaPasso p ps a resOpt pontos jogados usado).2.2.2
      (by rw [hst1]; exact hstep.2.2)
    rw [atletasLoop_cons]
    refine ⟨?_, ?_, ?_, ?_⟩
    · simpa using hih.1
    · simpa using hih.2.1
    · have h1 := hih.2.2.1
      have hpasso21 : (atletaPasso p ps a resOpt pontos jogados usado).2.1
          = pontos + (resolveSubstitution p (refreshAtleta p a)
              (jogoFinalizou (refreshAtleta p a).clube ps) usado (resBase.getD [])).1
            + starterOwnScore p a := by
        show pontos + (reservasStep p (refreshAtleta p a)
            (jogoFinalizou (refreshAtleta p a).clube ps) resOpt usado).2.1
            + (starterUpdate p a).pontos = _
        rw [hstep.1, starterUpdate_pontos]
      have hpasso222 : (atletaPasso p ps a resOpt pontos jogados usado).2.2.2
          = usado ++ (resolveSubstitution p (refreshAtleta p a)
              (jogoFinalizou (refreshAtleta p a).clube ps) usado (resBase.getD [])).2.toList := by
        show (reservasStep p (refreshAtleta p a)
            (jogoFinalizou (refreshAtleta p a).clube ps) resOpt usado).2.2 = _
        rw [hstep.2.1]
      show (atletasLoop p ps rest _ _ _ _).pontos = _
      rw [h1, hpasso21, hpasso222, substitutionCredits_cons, List.sum_cons, ownSum_cons]
      ring
    · have h2 := hih.2.2.2
      show (atletasLoop p ps rest _ _ _ _).jogados = _
      rw [h2, jogadosSpec_cons]
      show jogados + (if (lookupParcial p a.id).isSome then 1 else 0) + _ = _
      omega

@[simp] theorem starterUpdate_is_capitao (p : List (Int × Atleta)) (a : Atleta) :
    (starterUpdate p a).is_capitao = a.is_capitao := by
  unfold starterUpdate
  by_cases h : a.is_capitao <;> simp [h]

/-- The four observable components of `_calculate_parcial`: the starters are
mapped through the per-starter update, the reserve list keeps its refresh
class, `pontos` is the §4.4 sum and `jogados` the §4.4 count. -/
theorem calculate_parcial_spec (t : Time) (p : List (Int × Atleta)) (ps : List Partida) :
    (calculate_parcial t p ps).atletas = t.atletas.map (starterUpdate p)
  ∧ (calculate_parcial t p ps).reservas.map (List.map (refreshReserva p))
      = t.reservas.map (List.map (refreshReserva p))
  ∧ (calculate_parcial t p ps).pontos
      = ownSum p t.atletas
        + (substitutionCredits p ps (t.reservas.getD []) t.atletas []).sum
  ∧ (calculate_parcial t p ps).jogados = jogadosSpec p t.atletas := by
  have h := atletasLoop_spec p ps t.reservas t.atletas t.reservas 0 0 [] rfl
  unfold calculate_parcial
  dsimp only
  exact ⟨h.1, h.2.1, by rw [h.2.2.1]; ring, by rw [h.2.2.2]; omega⟩

/-- §4.3 over an empty reserve list awards nothing. -/
theorem resolveSubstitution_nil (p : List (Int × Atleta)) (a : Atleta) (jf : Bool)
    (usado : List String) : resolveSubstitution p a jf usado [] = (0, none) := rfl

/-- With no (or an empty) bench, every per-starter substitution credit is 0. -/
theorem substitutionCredits_nil_reservas (p : List (Int × Atleta)) (ps : List Partida) :
    ∀ (atletas : List Atleta) (usado : List String),
      (substitutionCredits p ps [] atletas usado).sum = 0 := by
  intro atletas
  induction atletas with
  | nil => intro usado; simp [substitutionCredits]
  | cons a rest ih =>
    intro usado
    rw [substitutionCredits_cons, List.sum_cons, resolveSubstitution_nil]
    simpa [resolveSubstitution_nil] using ih usado

/-! ## Claim theorems -/

/-- **C1.**  For every roster, live-feed mapping and match list,
`_calculate_parcial` returns the roster with `pontos` equal to the sum, over
all starter entries in stored order, of the starter's live score looked up in
the feed (0 if absent), multiplied by 1.5 when that starter is the captain,
plus every substitution credit awarded under the §4.3 rule (threading the
roster-wide positions-already-substituted list), and with `jogados` equal to
the number of starters whose id has an entry in the live feed. -/
theorem calculate_parcial_result_guarantee (t : Time) (p : List (Int × Atleta))
    (ps : List Partida) :
    (calculate_parcial t p ps).pontos
        = ownSum p t.atletas
          + (substitutionCredits p ps (t.reservas.getD []) t.atletas []).sum
    ∧ (calculate_parcial t p ps).jogados = jogadosSpec p t.atletas :=
  ⟨(calculate_parcial_spec t p ps).2.2.1, (calculate_parcial_spec t p ps).2.2.2⟩

/-- **C10.**  For every roster whose reserve list is absent (`None`) or
empty, `_calculate_parcial` awards no substitution credit at all, for every
live feed and match list: the resulting `pontos` is exactly the sum over the
starters of their own live score with the 1.5 captain multiplier applied to
the captain. -/
theorem no_reservas_no_substitution_credit (t : Time) (p : List (Int × Atleta))
    (ps : List Partida) (h : t.reservas = none ∨ t.reservas = some []) :
    (calculate_parcial t p ps).pontos = ownSum p t.atletas := by
  have hspec := (calculate_parcial_spec t p ps).2.2.1
  have hget : t.reservas.getD [] = [] := by
    rcases h with h | h <;> simp [h]
  rw [hspec, hget, substitutionCredits_nil_reservas, add_zero]

/-- Removing an element that fails the predicate does not change `countP`. -/
theorem countP_eraseIdx_of_not {α : Type} (pred : α → Bool) :
    ∀ (l : List α) (i : Nat) (hi : i < l.length), pred (l.get ⟨i, hi⟩) = false →
      l.countP pred = (l.eraseIdx i).countP pred := by
  intro l
  induction l with
  | nil => intro i hi; simp at hi
  | cons x xs ih =>
    intro i hi hp
    cases i with
    | zero =>
      simp only [List.get] at hp
      show (x :: xs).countP pred = xs.countP pred
      simp [List.countP_cons, hp]
    | succ n =>
      have hn : n < xs.length := by simpa using hi
      have hrec := ih n hn (by simpa using hp)
      show (x :: xs).countP pred = (x :: xs.eraseIdx n).countP pred
      simp [List.countP_cons, hrec]

theorem starterOwnScore_absent (p : List (Int × Atleta)) (a : Atleta)
    (h : lookupParcial p a.id = none) : starterOwnScore p a = 0 := by
  by_cases hc : a.is_capitao <;> simp [starterOwnScore, h, hc]

theorem starterOwnScore_captain (p : List (Int × Atleta)) (a : Atleta) (ap : Atleta)
    (hc : a.is_capitao = true) (h : lookupParcial p a.id = some ap) :
    starterOwnScore p a = ap.pontos * ((3 : ℚ)/2) := by
  simp [starterOwnScore, h, hc]

/-- The per-starter update for a starter absent from the feed. -/
theorem starterUpdate_absent (p : List (Int × Atleta)) (a : Atleta)
    (h : lookupParcial p a.id = none) :
    starterUpdate p a
      = { a with nome := "", pontos := 0, scout := [], entrou_em_campo := false } := by
  by_cases hc : a.is_capitao <;> simp [starterUpdate, refreshAtleta, h, hc]

/-- **C7.**  For every starter whose id is absent from the live feed,
`_calculate_parcial` sets that starter's live score to 0, scout breakdown to
empty, entered-play flag to false and display name to empty; the starter's
own contribution to `pontos` is exactly 0 (already before the captain
multiplier), and `jogados` does not count that starter. -/
theorem missing_live_data_zero_contribution (t : Time) (p : List (Int × Atleta))
    (ps : List Partida) (i : Nat) (hi : i < t.atletas.length)
    (habs : lookupParcial p t.atletas[i].id = none) :
    (refreshAtleta p t.atletas[i]).pontos = 0
  ∧ starterOwnScore p t.atletas[i] = 0
  ∧ (calculate_parcial t p ps).atletas[i]?
      = some { t.atletas[i] with
          nome := "", pontos := 0, scout := [], entrou_em_campo := false }
  ∧ (calculate_parcial t p ps).jogados = jogadosSpec p t.atletas
  ∧ jogadosSpec p t.atletas = jogadosSpec p (t.atletas.eraseIdx i) := by
  refine ⟨by simp [refreshAtleta, habs], starterOwnScore_absent _ _ habs, ?_, ?_, ?_⟩
  · rw [(calculate_parcial_spec t p ps).1]
    rw [List.getElem?_map]
    rw [List.getElem?_eq_getElem hi]
    simp only [Option.map_some']
    rw [← starterUpdate_absent p _ habs]
  · exact (calculate_parcial_spec t p ps).2.2.2
  · exact countP_eraseIdx_of_not _ t.atletas i hi
      (by simp [List.get_eq_getElem, habs])

/-- **C5.**  For every captain starter with live score `p` in the feed, the
starter's own contribution to `pontos` is exactly `1.5 * p`: the multiplier
is applied to the starter's refreshed score after the reserve scan, and the
total decomposes as own scores plus §4.3 credits, in which every credited
term is a reserve's raw refreshed score — the multiplier never touches a
substitute's credited points. -/
theorem captain_multiplier_own_score (t : Time) (p : List (Int × Atleta))
    (ps : List Partida) (i : Nat) (hi : i < t.atletas.length) (ap : Atleta)
    (hcap : t.atletas[i].is_capitao = true)
    (hfeed : lookupParcial p t.atletas[i].id = some ap) :
    starterOwnScore p t.atletas[i] = ap.pontos * ((3 : ℚ)/2)
  ∧ (calculate_parcial t p ps).atletas[i]?.map Atleta.pontos
      = some (ap.pontos * ((3 : ℚ)/2))
  ∧ (calculate_parcial t p ps).pontos
      = ownSum p t.atletas
        + (substitutionCredits p ps (t.reservas.getD []) t.atletas []).sum := by
  refine ⟨starterOwnScore_captain _ _ _ hcap hfeed, ?_, (calculate_parcial_spec t p ps).2.2.1⟩
  rw [(calculate_parcial_spec t p ps).1]
  rw [List.getElem?_map]
  rw [List.getElem?_eq_getElem hi]
  simp only [Option.map_some', Option.map_map]
  have hp : (starterUpdate p t.atletas[i]).pontos = ap.pontos * ((3 : ℚ)/2) := by
    rw [starterUpdate_pontos, starterOwnScore_captain _ _ _ hcap hfeed]
  simp [hp]

/-! ## Idempotence support -/

theorem starterOwnScore_starterUpdate (p : List (Int × Atleta)) (a : Atleta) :
    starterOwnScore p (starterUpdate p a) = starterOwnScore p a := by
  unfold starterOwnScore
  rw [starterUpdate_id, starterUpdate_is_capitao]

theorem ownSum_map_update (p : List (Int × Atleta)) (l : List Atleta) :
    ownSum p (l.map (starterUpdate p)) = ownSum p l := by
  induction l with
  | nil => rfl
  | cons a rest ih =>
    rw [List.map_cons, ownSum_cons, ownSum_cons, starterOwnScore_starterUpdate, ih]

theorem jogadosSpec_map_update (p : List (Int × Atleta)) (l : List Atleta) :
    jogadosSpec p (l.map (starterUpdate p)) = jogadosSpec p l := by
  induction l with
  | nil => rfl
  | cons a rest ih =>
    rw [List.map_cons, jogadosSpec_cons, jogadosSpec_cons, starterUpdate_id, ih]

theorem substitutionCredits_map_update (p : List (Int × Atleta)) (ps : List Partida)
    (rs : List Atleta) :
    ∀ (l : List Atleta) (usado : List String),
      substitutionCredits p ps rs (l.map (starterUpdate p)) usado
        = substitutionCredits p ps rs l usado := by
  intro l
  induction l with
  | nil => intro usado; rfl
  | cons a rest ih =>
    intro usado
    rw [List.map_cons, substitutionCredits_cons, substitutionCredits_cons,
        refreshAtleta_starterUpdate, ih]

theorem substitutionCredits_reservas_congr (p : List (Int × Atleta)) (ps : List Partida)
    (rs₁ rs₂ : List Atleta) (h : rs₁.map (refreshReserva p) = rs₂.map (refreshReserva p)) :
    ∀ (l : List Atleta) (usado : List String),
      substitutionCredits p ps rs₁ l usado = substitutionCredits p ps rs₂ l usado := by
  intro l
  induction l with
  | nil => intro usado; rfl
  | cons a rest ih =>
    intro usado
    rw [substitutionCredits_cons, substitutionCredits_cons,
        resolveSubstitution_congr p _ _ usado rs₁ rs₂ h, ih]

theorem getD_map_of_map_eq {f : Atleta → Atleta} {o₁ o₂ : Option (List Atleta)}
    (h : o₁.map (List.map f) = o₂.map (List.map f)) :
    (o₁.getD []).map f = (o₂.getD []).map f := by
  cases o₁ <;> cases o₂ <;> simp_all

/-- **C8.**  Calling `_calculate_parcial` twice in succession with the same
(already mutated) roster object, the same live feed and the same match list
yields the same `pontos` and `jogados` after the second call as after the
first: both derived counters are reset to 0 and wholesale-recomputed from
fields the operation never modifies. -/
theorem calculate_parcial_idempotent (t : Time) (p : List (Int × Atleta))
    (ps : List Partida) :
    (calculate_parcial (calculate_parcial t p ps) p ps).pontos
        = (calculate_parcial t p ps).pontos
  ∧ (calculate_parcial (calculate_parcial t p ps) p ps).jogados
        = (calculate_parcial t p ps).jogados := by
  have h1 := calculate_parcial_spec t p ps
  have h2 := calculate_parcial_spec (calculate_parcial t p ps) p ps
  constructor
  · rw [h2.2.2.1, h1.2.2.1, h1.1, ownSum_map_update, substitutionCredits_map_update,
        substitutionCredits_reservas_congr p ps _ _ (getD_map_of_map_eq h1.2.1)]
  · rw [h2.2.2.2, h1.2.2.2, h1.1, jogadosSpec_map_update]

/-! ## Match status resolver (§4.2) -/

/-- Matches that do not reference the club leave the scan's flag unchanged. -/
theorem jogoFinalizou_acc (c : Option Clube) :
    ∀ (l : List Partida), (∀ m ∈ l, partidaDoClube c m = false) →
      ∀ acc : Bool,
        l.foldl (fun a q => if partidaDoClube c q then partidaFinalizada q else a) acc = acc := by
  intro l
  induction l with
  | nil => intro _ acc; rfl
  | cons m rest ih =>
    intro h acc
    have hm : partidaDoClube c m = false := h m (by simp)
    rw [List.foldl_cons]
    simp only [hm, Bool.false_eq_true, if_false]
    exact ih (fun x hx => h x (by simp [hx])) acc

/-- **C6.**  The match-status scan returns false when the club reference is
unresolved, false when no match in the list references the club, and
otherwise the finished test of the *last* match referencing the club (a
later referencing match overwrites an earlier one). -/
theorem isMatchFinished_spec :
    (∀ ps : List Partida, jogoFinalizou none ps = false)
  ∧ (∀ (c : Clube) (ps : List Partida),
        (∀ m ∈ ps, partidaDoClube (some c) m = false) →
        jogoFinalizou (some c) ps = false)
  ∧ (∀ (c : Clube) (l₁ : List Partida) (m : Partida) (l₂ : List Partida),
        partidaDoClube (some c) m = true →
        (∀ x ∈ l₂, partidaDoClube (some c) x = false) →
        jogoFinalizou (some c) (l₁ ++ m :: l₂) = partidaFinalizada m) := by
  refine ⟨?_, ?_, ?_⟩
  · intro ps
    exact jogoFinalizou_acc none ps (fun m _ => rfl) false
  · intro c ps h
    exact jogoFinalizou_acc (some c) ps h false
  · intro c l₁ m l₂ hm hl₂
    unfold jogoFinalizou
    rw [List.foldl_append, List.foldl_cons]
    simp only [hm, if_true]
    exact jogoFinalizou_acc (some c) l₂ hl₂ (partidaFinalizada m)

/-! ## Input validation (§7) -/

/-- **C4.**  If the live-feed mapping contains a non-integer key or a value
that is not an `Atleta`, or the roster argument is not a `Time`, then
`_calculate_parcial` raises `CartolaFCError` before touching the roster: in
this pure embedding the call returns the error and produces no updated
roster, so `pontos`, `jogados` and every starter and reserve entry keep
their prior values. -/
theorem invalid_input_raises_error (time : PyTime) (parciais : List (PyKey × PyVal))
    (partidas : List Partida) (h : inputsValidos time parciais = false) :
    calculate_parcial_checked time parciais partidas
      = .error "Time ou parciais não são válidos." := by
  unfold calculate_parcial_checked
  simp [h]

/-! ## Position consumption (§4.3 guarantee, corrected) -/

/-- Once the starter's position is recorded, the reserve scan credits nothing
and records nothing for that starter. -/
theorem resolveSubstitution_pos_consumed (p : List (Int × Atleta)) (a : Atleta)
    (jf : Bool) (usado : List String) (l : List Atleta)
    (h : a.posicao.nome ∈ usado) : resolveSubstitution p a jf usado l = (0, none) := by
  cases l with
  | nil => rfl
  | cons r rest =>
    by_cases h1 : a.entrou_em_campo <;> simp [resolveSubstitution, h1, h]

/-- The scan records a position only when it is the starter's own position
and was not yet recorded. -/
theorem resolveSubstitution_subPos (p : List (Int × Atleta)) (a : Atleta) (jf : Bool) :
    ∀ (usado : List String) (l : List Atleta) (s : String),
      (resolveSubstitution p a jf usado l).2 = some s →
      s = a.posicao.nome ∧ a.posicao.nome ∉ usado := by
  intro usado l
  induction l with
  | nil => intro s h; simp [resolveSubstitution] at h
  | cons r rest ih =>
    intro s h
    by_cases h1 : a.entrou_em_campo
    · simp [resolveSubstitution, h1] at h
    · by_cases h2 : a.posicao.nome ∈ usado
      · simp [resolveSubstitution, h1, h2] at h
      · by_cases h3 : a.posicao.nome = r.posicao.nome ∧ jf = true ∧
            ((10 : ℚ))⁻¹ ≤ (refreshReserva p r).pontos
        · obtain ⟨he, hjf, hge⟩ := h3
          have h2r : r.posicao.nome ∉ usado := he ▸ h2
          have hs : r.posicao.nome = s := by
            simpa [resolveSubstitution, h1, h2r, he, hjf, hge] using h
          exact ⟨(hs ▸ he).symm, h2⟩
        · simp [resolveSubstitution, h1, h2, h3] at h
          exact ih s h

/-- The `reserva_usado` list stays duplicate-free across the whole pass. -/
theorem atletasLoop_usado_nodup (p : List (Int × Atleta)) (ps : List Partida) :
    ∀ (atletas : List Atleta) (resOpt : Option (List Atleta)) (pontos : ℚ)
      (jogados : Nat) (usado : List String), usado.Nodup →
      (atletasLoop p ps atletas resOpt pontos jogados usado).reserva_usado.Nodup := by
  intro atletas
  induction atletas with
  | nil =>
    intro resOpt pontos jogados usado h
    simpa [atletasLoop] using h
  | cons a rest ih =>
    intro resOpt pontos jogados usado h
    rw [atletasLoop_cons]
    show (atletasLoop p ps rest _ _ _ _).reserva_usado.Nodup
    apply ih
    have hstep := reservasStep_spec p (refreshAtleta p a)
      (jogoFinalizou (refreshAtleta p a).clube ps) resOpt resOpt usado rfl
    show (reservasStep p (refreshAtleta p a)
        (jogoFinalizou (refreshAtleta p a).clube ps) resOpt usado).2.2.Nodup
    rw [hstep.2.1]
    rcases hsub : (resolveSubstitution p (refreshAtleta p a)
        (jogoFinalizou (refreshAtleta p a).clube ps) usado (resOpt.getD [])).2 with _ | s
    · simpa using h
    · obtain ⟨hs1, hs2⟩ := resolveSubstitution_subPos p (refreshAtleta p a)
        (jogoFinalizou (refreshAtleta p a).clube ps) usado (resOpt.getD []) s hsub
      subst hs1
      simp [List.nodup_append, h]
      simpa using hs2

/-- **C2 (amended).**  Within one scoring pass, the position-consuming branch
of §4.3 (reserve points ≥ 0.1) records each position at most once — the
recorded-positions list stays duplicate-free — and once a starter's position
is in the shared list, the scan awards that starter no substitution credit at
all.  (The separate captain branch can additionally credit several matching
reserves for a captain starter before the position is consumed, which is what
the original claim ruled out.) -/
theorem substitution_position_consumed_once :
    (∀ (p : List (Int × Atleta)) (a : Atleta) (jf : Bool) (usado : List String)
        (l : List Atleta), a.posicao.nome ∈ usado →
        resolveSubstitution p a jf usado l = (0, none))
  ∧ (∀ (t : Time) (p : List (Int × Atleta)) (ps : List Partida),
        (atletasLoop p ps t.atletas t.reservas 0 0 []).reserva_usado.Nodup) :=
  ⟨fun p a jf usado l h => resolveSubstitution_pos_consumed p a jf usado l h,
   fun t p ps => atletasLoop_usado_nodup p ps t.atletas t.reservas 0 0 [] List.nodup_nil⟩

/-! ## Partial reserve refresh (§4.4 step (c), corrected) -/

/-- A reserve entry after a pass is either untouched or refreshed from the
feed. -/
def ReservaIntacta (p : List (Int × Atleta)) (o c : Atleta) : Prop :=
  c = o ∨ c = refreshReserva p o

theorem reservaIntacta_refl (p : List (Int × Atleta)) (o : Atleta) :
    ReservaIntacta p o o := Or.inl rfl

theorem reservaIntacta_trans (p : List (Int × Atleta)) {o b c : Atleta}
    (h₁ : ReservaIntacta p o b) (h₂ : ReservaIntacta p b c) : ReservaIntacta p o c := by
  rcases h₁ with h₁ | h₁ <;> rcases h₂ with h₂ | h₂ <;> subst h₁ <;> subst h₂
  · exact Or.inl rfl
  · exact Or.inr rfl
  · exact Or.inr rfl
  · exact Or.inr (refreshReserva_idem p o)

theorem reservaIntacta_refreshed (p : List (Int × Atleta)) (o : Atleta) :
    ReservaIntacta p o (refreshReserva p o) := Or.inr rfl

theorem forall₂_reservaIntacta_refl (p : List (Int × Atleta)) (l : List Atleta) :
    List.Forall₂ (ReservaIntacta p) l l :=
  List.forall₂_same.mpr (fun o _ => reservaIntacta_refl p o)

theorem forall₂_reservaIntacta_trans (p : List (Int × Atleta)) :
    ∀ {l₁ l₂ l₃ : List Atleta}, List.Forall₂ (ReservaIntacta p) l₁ l₂ →
      List.Forall₂ (ReservaIntacta p) l₂ l₃ → List.Forall₂ (ReservaIntacta p) l₁ l₃ := by
  intro l₁ l₂ l₃ h₁ h₂
  induction h₁ generalizing l₃ with
  | nil => cases h₂; exact .nil
  | cons hab htail ih =>
    cases h₂ with
    | cons hbc h₂t => exact .cons (reservaIntacta_trans p hab hbc) (ih h₂t)

/-- The reserve scan leaves every reserve untouched or refreshed. -/
theorem reservasLoop_intacta (p : List (Int × Atleta)) (a : Atleta) (jf : Bool) :
    ∀ (usado : List String) (l : List Atleta),
      List.Forall₂ (ReservaIntacta p) l (reservasLoop p a jf usado l).reservas := by
  intro usado l
  induction l generalizing usado with
  | nil => exact .nil
  | cons r rest ih =>
    simp only [reservasLoop]
    split
    · exact .cons (reservaIntacta_refreshed p r) (forall₂_reservaIntacta_refl p rest)
    · split
      · exact .cons (reservaIntacta_refreshed p r) (forall₂_reservaIntacta_refl p rest)
      · split
        · exact .cons (reservaIntacta_refreshed p r) (forall₂_reservaIntacta_refl p rest)
        · exact .cons (reservaIntacta_refreshed p r) (ih usado)

/-- Lifted to the guarded step. -/
theorem reservasStep_intacta (p : List (Int × Atleta)) (a : Atleta) (jf : Bool)
    (resOpt : Option (List Atleta)) (usado : List String) :
    List.Forall₂ (ReservaIntacta p) (resOpt.getD [])
      ((reservasStep p a jf resOpt usado).1.getD []) := by
  cases resOpt with
  | none => exact .nil
  | some rs =>
    by_cases he : rs.isEmpty
    · simp only [reservasStep, he, if_true, reduceIte, Option.getD_some]
      exact forall₂_reservaIntacta_refl p rs
    · simp only [reservasStep, he, Bool.false_eq_true, if_false, reduceIte, Option.getD_some]
      exact reservasLoop_intacta p a jf usado rs

/-- Lifted to the whole starter loop. -/
theorem atletasLoop_intacta (p : List (Int × Atleta)) (ps : List Partida) :
    ∀ (atletas : List Atleta) (resOpt : Option (List Atleta)) (pontos : ℚ)
      (jogados : Nat) (usado : List String),
      List.Forall₂ (ReservaIntacta p) (resOpt.getD [])
        ((atletasLoop p ps atletas resOpt pontos jogados usado).reservas.getD []) := by
  intro atletas
  induction atletas with
  | nil =>
    intro resOpt pontos jogados usado
    exact forall₂_reservaIntacta_refl p (resOpt.getD [])
  | cons a rest ih =>
    intro resOpt pontos jogados usado
    rw [atletasLoop_cons]
    exact forall₂_reservaIntacta_trans p
      (reservasStep_intacta p (refreshAtleta p a)
        (jogoFinalizou (refreshAtleta p a).clube ps) resOpt usado)
      (ih (atletaPasso p ps a resOpt pontos jogados usado).1
        (atletaPasso p ps a resOpt pontos jogados usado).2.1
        (atletaPasso p ps a resOpt pontos jogados usado).2.2.1
        (atletaPasso p ps a resOpt pontos jogados usado).2.2.2)

/-- **C3 (amended).**  On each starter iteration the reserves are scanned in
stored order, each scanned reserve being refreshed from the feed before it is
read, but the scan stops early (after the first reserve when the starter
entered play or the starter's position was already substituted, and after the
crediting reserve when a substitution fires).  Consequently each reserve
entry after the pass is either its original value or its feed refresh — not
necessarily refreshed — and substitution credits are unaffected, because
§4.3 cannot distinguish a reserve list from its full refresh. -/
theorem reservas_refreshed_prefix_only :
    (∀ (t : Time) (p : List (Int × Atleta)) (ps : List Partida),
        List.Forall₂ (ReservaIntacta p) (t.reservas.getD [])
          ((calculate_parcial t p ps).reservas.getD []))
  ∧ (∀ (p : List (Int × Atleta)) (a : Atleta) (jf : Bool) (usado : List String)
        (l : List Atleta),
        resolveSubstitution p a jf usado (l.map (refreshReserva p))
          = resolveSubstitution p a jf usado l) := by
  constructor
  · intro t p ps
    exact atletasLoop_intacta p ps t.atletas t.reservas 0 0 []
  · intro p a jf usado l
    apply resolveSubstitution_congr
    rw [List.map_map]
    apply List.map_congr_left
    intro r _
    exact refreshReserva_idem p r

/-! ## The duplicated `parcial_2` pipeline (lines 546-629 of `api.py`) -/

/-- Models `parciais_2.get(id_)` — the `_teste_2` helper (line 458). -/
def lookupParcial_2 (parciais_2 : List (Int × Atleta)) (id_ : Int) : Option Atleta :=
  (parciais_2.find? (fun kv => kv.1 == id_)).map (fun kv => kv.2)

/-- Lines 571-578: starter refresh of the `parcial_2` copy. -/
def refreshAtleta_2 (parciais_2 : List (Int × Atleta)) (atleta : Atleta) : Atleta :=
  match lookupParcial_2 parciais_2 atleta.id with
  | some ap => { atleta with
      nome := ap.apelido, pontos := ap.pontos, scout := ap.scout,
      entrou_em_campo := ap.entrou_em_campo }
  | none => { atleta with nome := "", pontos := 0, scout := [], entrou_em_campo := false }

/-- Lines 597-600: reserve refresh of the `parcial_2` copy. -/
def refreshReserva_2 (parciais_2 : List (Int × Atleta)) (reserva : Atleta) : Atleta :=
  match lookupParcial_2 parciais_2 reserva.id with
  | some rp => { reserva with pontos := rp.pontos, scout := rp.scout }
  | none => { reserva with pontos := 0, scout := [] }

/-- Lines 581-592: the `jogo_finalizou` scan of the `parcial_2` copy. -/
def jogoFinalizou_2 (clube : Option Clube) (partidas : List Partida) : Bool :=
  partidas.foldl
    (fun acc partida => if partidaDoClube clube partida then partidaFinalizada partida else acc)
    false

/-- Lines 595-622: the reserve scan of the `parcial_2` copy. -/
def reservasLoop_2 (parciais_2 : List (Int × Atleta)) (atleta : Atleta) (jogo_finalizou : Bool) :
    List String → List Atleta → SubOut
  | reserva_usado, [] => ⟨[], 0, reserva_usado⟩
  | reserva_usado, reserva :: rest =>
    let reserva := refreshReserva_2 parciais_2 reserva
    if atleta.entrou_em_campo then
      ⟨reserva :: rest, 0, reserva_usado⟩
    else if reserva_usado.contains atleta.posicao.nome then
      ⟨reserva :: rest, 0, reserva_usado⟩
    else
      let cap : ℚ :=
        if atleta.is_capitao ∧ atleta.posicao.nome = reserva.posicao.nome ∧ jogo_finalizou then
          reserva.pontos
        else 0
      if atleta.posicao.nome = reserva.posicao.nome ∧ jogo_finalizou ∧
          (1 : ℚ)/10 ≤ reserva.pontos then
        ⟨reserva :: rest, cap + reserva.pontos, reserva_usado ++ [atleta.posicao.nome]⟩
      else
        let out := reservasLoop_2 parciais_2 atleta jogo_finalizou reserva_usado rest
        ⟨reserva :: out.reservas, cap + out.pontos, out.reserva_usado⟩

/-- Line 594: the `if time.reservas:` guard of the `parcial_2` copy. -/
def reservasStep_2 (parciais_2 : List (Int × Atleta)) (atleta : Atleta) (jogo_finalizou : Bool)
    (reservas : Option (List Atleta)) (reserva_usado : List String) :
    Option (List Atleta) × ℚ × List String :=
  match reservas with
  | some rs =>
    if rs.isEmpty then (some rs, 0, reserva_usado)
    else
      let out := reservasLoop_2 parciais_2 atleta jogo_finalizou reserva_usado rs
      (some out.reservas, out.pontos, out.reserva_usado)
  | none => (none, 0, reserva_usado)

/-- Lines 560-627: the starter loop of the `parcial_2` copy. -/
def atletasLoop_2 (parciais_2 : List (Int × Atleta)) (partidas : List Partida) :
    List Atleta → Option (List Atleta) → ℚ → Nat → List String → CalcOut
  | [], reservas, pontos, jogados, reserva_usado => ⟨[], reservas, pontos, jogados, reserva_usado⟩
  | atleta :: rest, reservas, pontos, jogados, reserva_usado =>
    let tem_parcial := (lookupParcial_2 parciais_2 atleta.id).isSome
    let atleta := refreshAtleta_2 parciais_2 atleta
    let jogados := jogados + (if tem_parcial then 1 else 0)
    let jogo_finalizou := jogoFinalizou_2 atleta.clube partidas
    let rsOut := reservasStep_2 parciais_2 atleta jogo_finalizou reservas reserva_usado
    let atleta := if atleta.is_capitao then
        { atleta with pontos := atleta.pontos * ((3 : ℚ)/2) }
      else atleta
    let pontos := pontos + rsOut.2.1 + atleta.pontos
    let out := atletasLoop_2 parciais_2 partidas rest rsOut.1 pontos jogados rsOut.2.2
    { out with atletas := atleta :: out.atletas }

/-- `Api._calculate_parcial_2` on type-correct inputs (lines 552-629). -/
def calculate_parcial_2 (time : Time) (parciais_2 : List (Int × Atleta))
    (partidas : List Partida) : Time :=
  let time := { time with pontos := 0, jogados := 0 }
  let out := atletasLoop_2 parciais_2 partidas time.atletas time.reservas time.pontos time.jogados []
  { time with
      atletas := out.atletas, reservas := out.reservas,
      pontos := out.pontos, jogados := out.jogados }

/-- `Api._calculate_parcial_2` including the dynamic input check of lines
549-551. -/
def calculate_parcial_2_checked (time : PyTime) (parciais_2 : List (PyKey × PyVal))
    (partidas : List Partida) : Except String Time :=
  if inputsValidos time parciais_2 then
    match time with
    | .time t => .ok (calculate_parcial_2 t (extractParciais parciais_2) partidas)
    | .str _ => .error "Time ou parciais não são válidos."
  else .error "Time ou parciais não são válidos."

theorem reservasLoop_2_eq (p : List (Int × Atleta)) (a : Atleta) (jf : Bool) :
    ∀ (usado : List String) (l : List Atleta),
      reservasLoop_2 p a jf usado l = reservasLoop p a jf usado l := by
  intro usado l
  induction l generalizing usado with
  | nil => rfl
  | cons r rest ih =>
    simp only [reservasLoop_2, reservasLoop, ih]
    rfl

theorem atletasLoop_2_eq (p : List (Int × Atleta)) (ps : List Partida) :
    ∀ (atletas : List Atleta) (resOpt : Option (List Atleta)) (pontos : ℚ)
      (jogados : Nat) (usado : List String),
      atletasLoop_2 p ps atletas resOpt pontos jogados usado
        = atletasLoop p ps atletas resOpt pontos jogados usado := by
  intro atletas
  induction atletas with
  | nil => intro resOpt pontos jogados usado; rfl
  | cons a rest ih =>
    intro resOpt pontos jogados usado
    simp only [atletasLoop_2, atletasLoop, reservasStep_2, reservasStep,
      reservasLoop_2_eq, ih]
    rfl

/-- **C9.**  The two aggregation pipelines `_calculate_parcial` and
`_calculate_parcial_2` compute identical results on every roster, feed and
match list — the same `pontos`, the same `jogados` and the same mutation of
every starter and reserve entry — and their checked entry points agree on
malformed inputs as well, so the duplicated paths are one aggregation
function parameterized over the injected live-feed mapping. -/
theorem parcial_paths_equal :
    (∀ (t : Time) (p : List (Int × Atleta)) (ps : List Partida),
        calculate_parcial t p ps = calculate_parcial_2 t p ps)
  ∧ (∀ (time : PyTime) (parciais : List (PyKey × PyVal)) (ps : List Partida),
        calculate_parcial_checked time parciais ps
          = calculate_parcial_2_checked time parciais ps) := by
  have hcore : ∀ (t : Time) (p : List (Int × Atleta)) (ps : List Partida),
      calculate_parcial t p ps = calculate_parcial_2 t p ps := by
    intro t p ps
    unfold calculate_parcial calculate_parcial_2
    dsimp only
    rw [atletasLoop_2_eq]
  refine ⟨hcore, ?_⟩
  intro time parciais ps
  unfold calculate_parcial_checked calculate_parcial_2_checked
  cases time with
  | time t => simp only [hcore]
  | str s => rfl

/-! ## Concrete scenarios: counterexamples and witnesses -/

def clubeFla : Clube := ⟨262, "Flamengo", "FLA"⟩
def clubeBot : Clube := ⟨263, "Botafogo", "BOT"⟩
def clubeVas : Clube := ⟨264, "Vasco", "VAS"⟩
def posGOL : Posicao := ⟨1, "Goleiro", "GOL"⟩
def posATA : Posicao := ⟨5, "Atacante", "ATA"⟩

/-- A finished match: the broadcast label is the ended code. -/
def mFla : Partida := ⟨true, clubeFla, clubeBot, "veja como foi", ""⟩

def s1C2 : Atleta :=
  { id := 1
    apelido := "Capitao"
    pontos := 0
    posicao := posATA
    clube := some clubeFla
    is_capitao := true }
def r1C2 : Atleta := { id := 11, apelido := "R1", pontos := 0, posicao := posATA }
def r2C2 : Atleta := { id := 12, apelido := "R2", pontos := 0, posicao := posATA }
def f1C2 : Atleta := { id := 11, apelido := "R1", pontos := 1/20, posicao := posATA }
def f2C2 : Atleta := { id := 12, apelido := "R2", pontos := 5, posicao := posATA }
def pC2 : List (Int × Atleta) := [(11, f1C2), (12, f2C2)]
def psC2 : List Partida := [mFla]
def tC2 : Time := { atletas := [s1C2], reservas := some [r1C2, r2C2] }

/-- **C2 (counterexample).**  One captain starter at Atacante, absent from the
feed, with a finished match and two Atacante reserves scoring 0.05 and 5:
the pass credits 0.05 + 5 + 5 = 10.05 points (the captain branch credits
both reserves and the consuming branch re-credits the second), although the
starters contribute 0 and no single reserve's refreshed score is 10.05 — so
more than one reserve's points are credited for one starter position. -/
theorem substitution_multiple_reserves_credited :
    (calculate_parcial tC2 pC2 psC2).pontos = 201/20
  ∧ ((tC2.reservas.getD []).map (fun r => (refreshReserva pC2 r).pontos)) = [1/20, 5]
  ∧ ownSum pC2 tC2.atletas = 0
  ∧ ((201 : ℚ)/20 ≠ 0 ∧ (201 : ℚ)/20 ≠ 1/20 ∧ (201 : ℚ)/20 ≠ 5) := by
  refine ⟨by with_unfolding_all rfl, by with_unfolding_all rfl, by with_unfolding_all rfl,
    by norm_num, by norm_num, by norm_num⟩

/-- Witness for the amended C2 statement at a concrete input. -/
theorem substitution_position_consumed_once_witness :
    resolveSubstitution pC2 s1C2 true ["Atacante"] (tC2.reservas.getD []) = (0, none)
  ∧ (atletasLoop pC2 [] tC2.atletas tC2.reservas 0 0 []).reserva_usado.Nodup :=
  ⟨substitution_position_consumed_once.1 pC2 s1C2 true ["Atacante"]
      (tC2.reservas.getD []) (by decide),
   substitution_position_consumed_once.2 tC2 pC2 []⟩

def sC3 : Atleta :=
  { id := 2
    apelido := "Arqueiro"
    pontos := 0
    posicao := posGOL
    clube := some clubeFla }
def fS3 : Atleta :=
  { id := 2
    apelido := "Arqueiro"
    pontos := 3
    posicao := posGOL
    entrou_em_campo := true }
def rA3 : Atleta := { id := 21, apelido := "RG1", pontos := 0, posicao := posGOL }
def rB3 : Atleta := { id := 22, apelido := "RG2", pontos := 99, posicao := posGOL }
def fB3 : Atleta := { id := 22, apelido := "RG2", pontos := 7, posicao := posGOL }
def pC3 : List (Int × Atleta) := [(2, fS3), (22, fB3)]
def tC3 : Time := { atletas := [sC3], reservas := some [rA3, rB3] }

/-- **C3 (counterexample).**  One starter who entered play and two reserves:
the scan refreshes the first reserve and then breaks, so the second reserve
keeps its stale stored score 99 even though the feed holds 7 for it — the
reserves are not all refreshed on every starter iteration. -/
theorem reserve_refresh_skipped_counterexample :
    ((calculate_parcial tC3 pC3 []).reservas.getD []).map Atleta.pontos = [0, 99]
  ∧ lookupParcial pC3 22 = some fB3
  ∧ fB3.pontos = 7
  ∧ ((99 : ℚ) ≠ 7) := by
  refine ⟨by with_unfolding_all rfl, by with_unfolding_all rfl, by with_unfolding_all rfl,
    by norm_num⟩

def sC5 : Atleta :=
  { id := 5
    apelido := "Craque"
    pontos := 0
    posicao := posATA
    is_capitao := true }
def fC5 : Atleta :=
  { id := 5
    apelido := "Craque"
    pontos := 8
    posicao := posATA
    entrou_em_campo := true }
def pC5 : List (Int × Atleta) := [(5, fC5)]
def tC5 : Time := { atletas := [sC5], reservas := none }

/-- Witness for C5 at a concrete captain scoring 8: own contribution 12. -/
theorem captain_multiplier_own_score_witness :
    starterOwnScore pC5 (tC5.atletas.get ⟨0, by decide⟩) = fC5.pontos * ((3 : ℚ)/2)
  ∧ fC5.pontos * ((3 : ℚ)/2) = 12 := by
  have h := captain_multiplier_own_score tC5 pC5 [] 0 (by decide) fC5 (by decide) (by decide)
  exact ⟨h.1, by with_unfolding_all rfl⟩

def sC7 : Atleta := { id := 7, apelido := "Ausente", pontos := 4, posicao := posGOL }
def pC7 : List (Int × Atleta) := []
def tC7 : Time := { atletas := [sC7], reservas := none }

/-- Witness for C7 at a concrete starter absent from an empty feed. -/
theorem missing_live_data_zero_contribution_witness :
    starterOwnScore pC7 (tC7.atletas.get ⟨0, by decide⟩) = 0
  ∧ (calculate_parcial tC7 pC7 []).jogados = 0 := by
  have h := missing_live_data_zero_contribution tC7 pC7 [] 0 (by decide) (by decide)
  refine ⟨h.2.1, ?_⟩
  rw [h.2.2.2.1]
  decide

def sC10 : Atleta := { id := 9, apelido := "Ponta", pontos := 0, posicao := posATA }
def fC10 : Atleta :=
  { id := 9
    apelido := "Ponta"
    pontos := 3
    posicao := posATA
    entrou_em_campo := true }
def pC10 : List (Int × Atleta) := [(9, fC10)]
def tC10 : Time := { atletas := [sC10], reservas := none }

/-- Witness for C10 at a concrete roster without a bench. -/
theorem no_reservas_no_substitution_credit_witness :
    (calculate_parcial tC10 pC10 []).pontos = ownSum pC10 tC10.atletas
  ∧ ownSum pC10 tC10.atletas = 3 :=
  ⟨no_reservas_no_substitution_credit tC10 pC10 [] (Or.inl rfl), by with_unfolding_all rfl⟩

def tC4 : Time := { atletas := [], reservas := none }
def badFeedC4 : List (PyKey × PyVal) := [(PyKey.str "chave", PyVal.atleta f1C2)]

/-- Witness for C4: a feed with a string key makes the checked call fail. -/
theorem invalid_input_raises_error_witness :
    inputsValidos (PyTime.time tC4) badFeedC4 = false
  ∧ calculate_parcial_checked (PyTime.time tC4) badFeedC4 []
      = .error "Time ou parciais não são válidos." :=
  ⟨by decide, invalid_input_raises_error (PyTime.time tC4) badFeedC4 [] (by decide)⟩

/-- Witness for C6: the unresolved-club, no-match and last-match cases at
concrete inputs. -/
theorem isMatchFinished_spec_witness :
    jogoFinalizou none psC2 = false
  ∧ jogoFinalizou (some clubeVas) psC2 = false
  ∧ jogoFinalizou (some clubeFla) psC2 = partidaFinalizada mFla
  ∧ partidaFinalizada mFla = true :=
  ⟨isMatchFinished_spec.1 psC2,
   isMatchFinished_spec.2.1 clubeVas psC2 (by decide),
   isMatchFinished_spec.2.2 clubeFla [] mFla [] (by decide) (by decide),
   by decide⟩

end CartolaFC
